import Mathlib

/-!
Verification of `policyengine_api/endpoints/metadata.py`.

The module is a set of pure projection functions over an already-loaded
rule-system object.  We embed the Python runtime values the projectors
manipulate as the inductive type `PyVal`, Python dictionaries as
association lists with CPython assignment semantics (`dictInsert`
overwrites in place, `dictGet` looks up), and unrecovered Python
exceptions (attribute errors) as `Option`.
-/

/-- A member of a Python `Enum` class: `.name` and `.value` attributes. -/
structure EnumMember where
  name : String
  value : String
deriving DecidableEq

/-- Python runtime values as seen by the metadata projectors. -/
inductive PyVal where
  | pyNone
  | pyBool (b : Bool)
  | pyInt (n : Int)
  | pyFloat (q : Rat)
  | pyStr (s : String)
  | pyEnumMember (m : EnumMember)
  | pyList (xs : List PyVal)

/-- CPython dict assignment `d[k] = v`: overwrite in place if the key is
present, else append at the end (insertion order preserved). -/
def dictInsert {α : Type} (k : String) (v : α) : List (String × α) → List (String × α)
  | [] => [(k, v)]
  | (k', v') :: rest => if k' = k then (k, v) :: rest else (k', v') :: dictInsert k v rest

/-- CPython `d.get(k)`: first (hence, under `dictInsert` discipline, only)
binding of the key. -/
def dictGet {α : Type} (d : List (String × α)) (k : String) : Option α :=
  match d with
  | [] => none
  | (k', v) :: rest => if k' = k then some v else dictGet rest k

/-- `isinstance(x, (int, float, bool))` over the embedded value universe. -/
def isinstance_int_float_bool : PyVal → Bool
  | .pyInt _ => true
  | .pyFloat _ => true
  | .pyBool _ => true
  | _ => false

/-- A variable definition from `country.tax_benefit_system.variables`:
only the attributes `build_variables` reads. -/
structure Variable where
  documentation : Option String
  entity_key : String
  value_type_name : String
  definition_period : String
  label : Option String
  category : Option String
  unit : Option String
  module_name : String
  index_in_module : Int
  is_input_variable : Bool
  default_value : PyVal
  adds : Option (List String)
  subtracts : Option (List String)
  possible_values : List EnumMember

/-- One entry of the `possibleValues` list:
`dict(value=value.name, label=value.value)`. -/
structure PossibleValue where
  value : String
  label : String
deriving DecidableEq

/-- The record `build_variables` emits for one variable.
`possibleValues = none` models the key being absent (non-enum variables). -/
structure VariableRecord where
  documentation : Option String
  entity : String
  valueType : String
  definitionPeriod : String
  name : String
  label : Option String
  category : Option String
  unit : Option String
  moduleName : String
  indexInModule : Int
  isInputVariable : Bool
  defaultValue : PyVal
  adds : Option (List String)
  subtracts : Option (List String)
  possibleValues : Option (List PossibleValue)

/-- The loop body of `build_variables` for one `(variable_name, variable)`
pair.  `none` models the `AttributeError` raised by
`variable.default_value.name` when an Enum-typed variable's default is not
an enum member. -/
def build_variable_record (variable_name : String) (v : Variable) : Option VariableRecord :=
  let base : VariableRecord := {
    documentation := v.documentation
    entity := v.entity_key
    valueType := v.value_type_name
    definitionPeriod := v.definition_period
    name := variable_name
    label := v.label
    category := v.category
    unit := v.unit
    moduleName := v.module_name
    indexInModule := v.index_in_module
    isInputVariable := v.is_input_variable
    defaultValue := if isinstance_int_float_bool v.default_value then
        v.default_value
      else
        PyVal.pyNone
    adds := v.adds
    subtracts := v.subtracts
    possibleValues := none }
  if v.value_type_name = "Enum" then
    match v.default_value with
    | PyVal.pyEnumMember m =>
        some { base with
          possibleValues := some (v.possible_values.map
            (fun value => PossibleValue.mk value.name value.value))
          defaultValue := PyVal.pyStr m.name }
    | _ => none
  else
    some base

/-- `build_variables`: fold the loop body over the variable mapping,
propagating a potential exception. -/
def build_variables (variables_ : List (String × Variable)) :
    Option (List (String × VariableRecord)) :=
  variables_.foldlM
    (fun variable_data nv =>
      (build_variable_record nv.1 nv.2).map (fun r => dictInsert nv.1 r variable_data))
    []

/-- Runtime class of a parameter-tree node (the spec's tagged variant
\x7bParameter, ParameterNode, Scale, ScaleBracket\x7d). -/
inductive PKind where
  | parameter
  | parameterNode
  | parameterScale
  | parameterScaleBracket
deriving DecidableEq

/-- A descendant node of the parameter tree: the attributes
`build_parameters` reads.  `metadata` is the node's metadata dict. -/
structure PNode where
  name : String
  kind : PKind
  description : Option String
  metadata : List (String × PyVal)
  values_list : List (String × PyVal)

/-- `country.tax_benefit_system.parameters`: the tree container object.
`instance_kind` is its own runtime class (tested by the Branch-B
condition); `get_descendants` is the upstream enumeration of descendant
nodes. -/
structure ParameterTree where
  instance_kind : PKind
  get_descendants : List PNode

/-- A record emitted by `build_parameters`: Branch A (`type:"parameter"`,
with unit/period/values keys) or Branch B (`type:"parameterNode"`,
without them). -/
inductive ParamRecord where
  | parameterRec (parameter : String) (description : Option String)
      (label : Option PyVal) (unit : Option PyVal) (period : Option PyVal)
      (values : List (String × PyVal))
  | parameterNodeRec (parameter : String) (description : Option String)
      (label : Option PyVal)

/-- The `type` field of an emitted parameter record. -/
def ParamRecord.type : ParamRecord → String
  | .parameterRec _ _ _ _ _ _ => "parameter"
  | .parameterNodeRec _ _ _ => "parameterNode"

/-- The loop body of `build_parameters` for one descendant node: `none`
when the node is skipped by a filter (or falls off the `elif` chain),
`some (key, record)` for the dict assignment it performs. -/
def process_parameter (get_safe_json : PyVal → PyVal) (parameters : ParameterTree)
    (parameter : PNode) : Option (String × ParamRecord) :=
  if "gov" ≠ parameter.name.take 3 then
    none
  else if parameter.kind = PKind.parameterScale ∨ parameter.kind = PKind.parameterScaleBracket then
    none
  else if parameter.kind = PKind.parameter then
    some (parameter.name, ParamRecord.parameterRec parameter.name parameter.description
      (dictGet parameter.metadata "label")
      (dictGet parameter.metadata "unit")
      (dictGet parameter.metadata "period")
      (parameter.values_list.map
        (fun value_at_instant => (value_at_instant.1, get_safe_json value_at_instant.2))))
  else if parameters.instance_kind = PKind.parameterNode then
    some (parameter.name, ParamRecord.parameterNodeRec parameter.name parameter.description
      (dictGet parameter.metadata "label"))
  else
    none

/-- One iteration of the `build_parameters` loop acting on the
accumulated dict. -/
def build_parameters_step (get_safe_json : PyVal → PyVal) (parameters : ParameterTree)
    (parameter_data : List (String × ParamRecord)) (parameter : PNode) :
    List (String × ParamRecord) :=
  match process_parameter get_safe_json parameters parameter with
  | some kv => dictInsert kv.1 kv.2 parameter_data
  | none => parameter_data

/-- `build_parameters`: iterate over all descendants of the parameter
tree. -/
def build_parameters (get_safe_json : PyVal → PyVal) (parameters : ParameterTree) :
    List (String × ParamRecord) :=
  parameters.get_descendants.foldl (build_parameters_step get_safe_json parameters) []

/-- A role of a group entity: the attributes `build_entities` reads. -/
structure Role where
  key : String
  plural : Option String
  label : Option String
  doc : Option String

/-- An entity object.  `roles = none` models `hasattr(entity, "roles")`
being false (the capability check), `roles = some rs` the attribute being
present with value `rs`. -/
structure Entity where
  plural : Option String
  label : Option String
  doc : Option String
  is_person : Bool
  key : String
  roles : Option (List Role)

/-- The per-role record with keys plural, label and doc. -/
structure RoleRecord where
  plural : Option String
  label : Option String
  doc : Option String

/-- The record `build_entities` emits for one entity.  `roles = none`
would model the `roles` key being absent from the dict. -/
structure EntityRecord where
  plural : Option String
  label : Option String
  doc : Option String
  is_person : Bool
  key : String
  roles : Option (List (String × RoleRecord))

/-- The loop body of `build_entities` for one entity. -/
def build_entity_record (entity : Entity) : EntityRecord :=
  let entity_data : EntityRecord := {
    plural := entity.plural
    label := entity.label
    doc := entity.doc
    is_person := entity.is_person
    key := entity.key
    roles := none }
  match entity.roles with
  | some roles =>
      { entity_data with
        roles := some (roles.foldl
          (fun acc role => dictInsert role.key (RoleRecord.mk role.plural role.label role.doc) acc)
          []) }
  | none => { entity_data with roles := some [] }

/-- `build_entities`: iterate over the entity collection, keyed by entity
key. -/
def build_entities (entities : List Entity) : List (String × EntityRecord) :=
  entities.foldl (fun data entity => dictInsert entity.key (build_entity_record entity) data) []

/-- A region entry with keys name and label. -/
structure RegionOption where
  name : String
  label : String

/-- A time-period entry with keys name and label (the name is a Python
int). -/
structure TimePeriodOption where
  name : Int
  label : String

/-- The `options` dict of `build_microsimulation_options`: `none` fields
model absent keys (the empty mapping for unknown countries). -/
structure EconomyOptions where
  region : Option (List RegionOption)
  time_period : Option (List TimePeriodOption)

/-- `country.tax_benefit_system`: the collaborator attributes `metadata`
reads. -/
structure TaxBenefitSystem where
  variables_ : List (String × Variable)
  parameters : ParameterTree
  entities : List Entity
  variable_module_metadata : PyVal

/-- A loaded country from the `COUNTRIES` registry. -/
structure PolicyEngineCountry where
  tax_benefit_system : TaxBenefitSystem

/-- `build_microsimulation_options`: hardcoded per-country lookup.  The
`country` argument is part of the source signature but unused. -/
def build_microsimulation_options (country : PolicyEngineCountry) (country_id : String) :
    EconomyOptions :=
  if country_id = "uk" then
    { region := some [RegionOption.mk "uk" "the UK", RegionOption.mk "ni" "Northern Ireland"]
      time_period := some [TimePeriodOption.mk 2022 "2022"] }
  else if country_id = "us" then
    { region := some [RegionOption.mk "us" "the US",
        RegionOption.mk "ak" "Alaska",
        RegionOption.mk "fl" "Florida",
        RegionOption.mk "md" "Maryland",
        RegionOption.mk "ma" "Massachusetts",
        RegionOption.mk "nv" "Nevada",
        RegionOption.mk "ny" "New York",
        RegionOption.mk "or" "Oregon",
        RegionOption.mk "pa" "Pennsylvania",
        RegionOption.mk "sd" "South Dakota",
        RegionOption.mk "tn" "Tennessee",
        RegionOption.mk "tx" "Texas",
        RegionOption.mk "wa" "Washington"]
      time_period := some [TimePeriodOption.mk 2022 "2022"] }
  else
    { region := none, time_period := none }

/-- The `result` dict of a successful `metadata` response: exactly six
keys. -/
structure MetadataResult where
  variables_ : List (String × VariableRecord)
  parameters : List (String × ParamRecord)
  entities : List (String × EntityRecord)
  variableModules : PyVal
  economy_options : EconomyOptions
  current_law_id : Int

/-- The success envelope `dict(status="ok", message=None, result=...)`. -/
structure SuccessEnvelope where
  status : String
  message : Option String
  result : MetadataResult

/-- What `metadata` returns: the validator's error envelope verbatim, or
a success envelope. -/
inductive MetadataResponse where
  | errorEnvelope (e : PyVal)
  | success (r : SuccessEnvelope)

/-- The endpoint `metadata(country_id)`.  The module-level collaborators
`COUNTRIES`, `validate_country` and `get_safe_json` are passed
explicitly; `none` models an unhandled exception escaping the handler. -/
def metadata (COUNTRIES : List (String × PolicyEngineCountry))
    (validate_country : String → Option PyVal)
    (get_safe_json : PyVal → PyVal)
    (country_id : String) : Option MetadataResponse :=
  let country := dictGet COUNTRIES country_id
  let country_not_found := validate_country country_id
  match country_not_found with
  | some err => some (MetadataResponse.errorEnvelope err)
  | none =>
    match country with
    | none => none
    | some country =>
      match build_variables country.tax_benefit_system.variables_ with
      | none => none
      | some variable_data =>
        some (MetadataResponse.success {
          status := "ok"
          message := none
          result := {
            variables_ := variable_data
            parameters := build_parameters get_safe_json country.tax_benefit_system.parameters
            entities := build_entities country.tax_benefit_system.entities
            variableModules := country.tax_benefit_system.variable_module_metadata
            economy_options := build_microsimulation_options country country_id
            current_law_id := if country_id = "uk" then 1 else 2 } })

/-- The module-level environment an invocation reads (registry,
validator, coercion helper), threaded as explicit state. -/
structure World where
  COUNTRIES : List (String × PolicyEngineCountry)
  validate_country : String → Option PyVal
  get_safe_json : PyVal → PyVal

/-- One invocation of the endpoint with explicit state passing: the
source performs only attribute reads and fresh-dict construction, so the
state is returned unchanged. -/
def metadata_call (w : World) (country_id : String) : Option MetadataResponse × World :=
  (metadata w.COUNTRIES w.validate_country w.get_safe_json country_id, w)

/-- Extract the current_law_id field from a (possibly error) response. -/
def response_current_law_id : Option MetadataResponse → Option Int
  | some (MetadataResponse.success env) => some env.result.current_law_id
  | _ => none

/-- Sample parameter-tree leaf under the gov namespace. -/
def sample_gov_parameter : PNode :=
  { name := "gov.x", kind := PKind.parameter, description := some "x rate",
    metadata := [], values_list := [("2022-01-01", PyVal.pyInt 5)] }

/-- Sample parameter-tree group node under the gov namespace. -/
def sample_gov_node : PNode :=
  { name := "gov.tax", kind := PKind.parameterNode, description := some "Tax",
    metadata := [], values_list := [] }

/-- Sample parameter tree: a ParameterNode container with two gov
descendants. -/
def sample_tree : ParameterTree :=
  { instance_kind := PKind.parameterNode,
    get_descendants := [sample_gov_parameter, sample_gov_node] }

/-- Sample rule system with no variables, parameters or entities. -/
def sample_tbs : TaxBenefitSystem :=
  { variables_ := []
    parameters := { instance_kind := PKind.parameterNode, get_descendants := [] }
    entities := []
    variable_module_metadata := PyVal.pyNone }

/-- Sample loaded country. -/
def sample_country : PolicyEngineCountry := ⟨sample_tbs⟩

/-- Sample registry holding the uk and us sample countries. -/
def sample_COUNTRIES : List (String × PolicyEngineCountry) :=
  [("uk", sample_country), ("us", sample_country)]

/-- Sample validator accepting every country id. -/
def sample_validator : String → Option PyVal := fun _ => none

/-- Sample enum member. -/
def sample_member : EnumMember := ⟨"A", "Option A"⟩

/-- Sample Enum-typed variable whose default is `sample_member`. -/
def sample_enum_variable : Variable :=
  { documentation := none, entity_key := "person", value_type_name := "Enum",
    definition_period := "year", label := none, category := none, unit := none,
    module_name := "m", index_in_module := 0, is_input_variable := true,
    default_value := PyVal.pyEnumMember sample_member, adds := none, subtracts := none,
    possible_values := [sample_member] }

/-- Sample str-typed variable (default is a Python str). -/
def sample_str_variable : Variable :=
  { documentation := none, entity_key := "person", value_type_name := "str",
    definition_period := "year", label := none, category := none, unit := none,
    module_name := "m", index_in_module := 0, is_input_variable := true,
    default_value := PyVal.pyStr "x", adds := none, subtracts := none,
    possible_values := [] }

/-- Sample entity without a roles attribute. -/
def sample_person : Entity :=
  { plural := some "people", label := some "Person", doc := some "", is_person := true,
    key := "person", roles := none }

/-- Sample entity with one role. -/
def sample_household : Entity :=
  { plural := some "households", label := some "Household", doc := some "", is_person := false,
    key := "household",
    roles := some [{ key := "member", plural := some "members", label := some "Member",
                     doc := some "" }] }

/-- If the loop body of build_parameters emits a binding, the bound key is
the node's own name and the node passed both filters. -/
theorem process_parameter_some_cases (gsj : PyVal → PyVal) (tree : ParameterTree) (p : PNode)
    (k : String) (r : ParamRecord)
    (h : process_parameter gsj tree p = some (k, r)) :
    k = p.name ∧ p.name.take 3 = "gov" ∧
      p.kind ≠ PKind.parameterScale ∧ p.kind ≠ PKind.parameterScaleBracket := by
  unfold process_parameter at h
  split_ifs at h with h1 h2 h3 h4
  · push_neg at h1 h2
    rw [Option.some.injEq, Prod.mk.injEq] at h
    exact ⟨h.1.symm, h1.symm, h2.1, h2.2⟩
  · push_neg at h1 h2
    rw [Option.some.injEq, Prod.mk.injEq] at h
    exact ⟨h.1.symm, h1.symm, h2.1, h2.2⟩

/-- Keys after a CPython dict assignment: the inserted key or an old
key. -/
theorem mem_keys_dictInsert {α : Type} (d : List (String × α)) (k0 k : String) (v : α)
    (h : k ∈ (dictInsert k0 v d).map Prod.fst) :
    k = k0 ∨ k ∈ d.map Prod.fst := by
  induction d with
  | nil =>
    simp [dictInsert] at h
    exact Or.inl h
  | cons hd tl ih =>
    obtain ⟨k1, v1⟩ := hd
    simp only [dictInsert] at h
    split_ifs at h with h1
    · subst h1
      simp only [List.map_cons, List.mem_cons] at h ⊢
      tauto
    · simp only [List.map_cons, List.mem_cons] at h ⊢
      rcases h with h | h
      · exact Or.inr (Or.inl h)
      · rcases ih h with h' | h'
        · exact Or.inl h'
        · exact Or.inr (Or.inr h')

/-- Every key accumulated by the build_parameters loop comes from the
initial dict or from the loop body on some listed node. -/
theorem mem_keys_build_parameters_aux (gsj : PyVal → PyVal) (tree : ParameterTree) :
    ∀ (ds : List PNode) (acc : List (String × ParamRecord)) (k : String),
      k ∈ (ds.foldl (build_parameters_step gsj tree) acc).map Prod.fst →
      k ∈ acc.map Prod.fst ∨ ∃ p ∈ ds, ∃ r, process_parameter gsj tree p = some (k, r) := by
  intro ds
  induction ds with
  | nil =>
    intro acc k h
    exact Or.inl h
  | cons p ds ih =>
    intro acc k h
    rw [List.foldl_cons] at h
    rcases ih _ k h with h' | h'
    · unfold build_parameters_step at h'
      cases hp : process_parameter gsj tree p with
      | none =>
        rw [hp] at h'
        exact Or.inl h'
      | some kv =>
        rw [hp] at h'
        rcases mem_keys_dictInsert _ _ _ _ h' with h'' | h''
        · exact Or.inr ⟨p, List.mem_cons_self p ds, kv.2, by rw [hp, h'']⟩
        · exact Or.inl h''
    · obtain ⟨q, hq, r, hr⟩ := h'
      exact Or.inr ⟨q, List.mem_cons_of_mem _ hq, r, hr⟩

/-- C6: every key in the parameter projector's output mapping starts with
the three-character literal "gov" and is the dotted name of a descendant
node that passes the namespace filter and is neither a Scale nor a Scale
Bracket. -/
theorem build_parameters_keys_filtered (gsj : PyVal → PyVal) (tree : ParameterTree) (k : String)
    (hk : k ∈ (build_parameters gsj tree).map Prod.fst) :
    k.take 3 = "gov" ∧
      k ∈ (tree.get_descendants.filter (fun p =>
        ("gov" == p.name.take 3) && !(p.kind == PKind.parameterScale) &&
          !(p.kind == PKind.parameterScaleBracket))).map PNode.name := by
  unfold build_parameters at hk
  rcases mem_keys_build_parameters_aux gsj tree tree.get_descendants [] k hk with h | h
  · simp at h
  · obtain ⟨p, hp, r, hr⟩ := h
    obtain ⟨hk1, hk2, hk3, hk4⟩ := process_parameter_some_cases gsj tree p k r hr
    subst hk1
    refine ⟨hk2, List.mem_map_of_mem PNode.name ?_⟩
    rw [List.mem_filter]
    exact ⟨hp, by simp [hk2, hk3, hk4]⟩

/-- Witness for C6 on the sample tree. -/
theorem build_parameters_keys_filtered_witness :
    ("gov.x").take 3 = "gov" ∧
      "gov.x" ∈ (sample_tree.get_descendants.filter (fun p =>
        ("gov" == p.name.take 3) && !(p.kind == PKind.parameterScale) &&
          !(p.kind == PKind.parameterScaleBracket))).map PNode.name :=
  build_parameters_keys_filtered id sample_tree "gov.x" (by decide)

/-- C1: for every descendant that passes both filters and is not a plain
Parameter, Branch B fires (its condition tests the tree container, whose
class is ParameterNode, so it is always true when reached) and the
parameterNode record is emitted for the node. -/
theorem process_parameter_branch_b (gsj : PyVal → PyVal) (tree : ParameterTree) (p : PNode)
    (hroot : tree.instance_kind = PKind.parameterNode)
    (hgov : p.name.take 3 = "gov")
    (hs : p.kind ≠ PKind.parameterScale)
    (hb : p.kind ≠ PKind.parameterScaleBracket)
    (hp : p.kind ≠ PKind.parameter) :
    process_parameter gsj tree p = some (p.name,
        ParamRecord.parameterNodeRec p.name p.description (dictGet p.metadata "label")) ∧
      ParamRecord.type (ParamRecord.parameterNodeRec p.name p.description
        (dictGet p.metadata "label")) = "parameterNode" := by
  refine ⟨?_, rfl⟩
  unfold process_parameter
  split_ifs with h1 h2
  · exact absurd hgov.symm h1
  · rcases h2 with h | h
    · exact absurd h hs
    · exact absurd h hb
  · rfl

/-- Witness for C1 on the sample group node. -/
theorem process_parameter_branch_b_witness :
    process_parameter id sample_tree sample_gov_node = some ("gov.tax",
        ParamRecord.parameterNodeRec "gov.tax" (some "Tax") none) ∧
      ParamRecord.type (ParamRecord.parameterNodeRec "gov.tax" (some "Tax") none) =
        "parameterNode" :=
  process_parameter_branch_b id sample_tree sample_gov_node rfl (by decide)
    (by decide) (by decide) (by decide)

/-- C2: whenever the validator accepts the id (returns none) and the
registry holds the country, metadata returns the ok envelope with a nil
message and a result consisting of exactly the six documented fields. -/
theorem metadata_ok_envelope (COUNTRIES : List (String × PolicyEngineCountry))
    (validate_country : String → Option PyVal) (get_safe_json : PyVal → PyVal)
    (country_id : String) (c : PolicyEngineCountry) (vd : List (String × VariableRecord))
    (hval : validate_country country_id = none)
    (hreg : dictGet COUNTRIES country_id = some c)
    (hvars : build_variables c.tax_benefit_system.variables_ = some vd) :
    metadata COUNTRIES validate_country get_safe_json country_id =
      some (MetadataResponse.success {
        status := "ok"
        message := none
        result := {
          variables_ := vd
          parameters := build_parameters get_safe_json c.tax_benefit_system.parameters
          entities := build_entities c.tax_benefit_system.entities
          variableModules := c.tax_benefit_system.variable_module_metadata
          economy_options := build_microsimulation_options c country_id
          current_law_id := if country_id = "uk" then 1 else 2 } }) := by
  simp only [metadata, hval, hreg, hvars]

/-- Witness for C2 on the sample registry. -/
theorem metadata_ok_envelope_witness :
    metadata sample_COUNTRIES sample_validator id "uk" =
      some (MetadataResponse.success {
        status := "ok"
        message := none
        result := {
          variables_ := []
          parameters := []
          entities := []
          variableModules := PyVal.pyNone
          economy_options := {
            region := some [RegionOption.mk "uk" "the UK",
              RegionOption.mk "ni" "Northern Ireland"]
            time_period := some [TimePeriodOption.mk 2022 "2022"] }
          current_law_id := 1 } }) :=
  metadata_ok_envelope sample_COUNTRIES sample_validator id "uk" sample_country []
    rfl rfl rfl

/-- C3: when the validator returns an error envelope, metadata returns
exactly that envelope, for every registry and coercion helper (so none of
the projection work can influence or fail the response). -/
theorem metadata_error_passthrough (COUNTRIES : List (String × PolicyEngineCountry))
    (validate_country : String → Option PyVal) (get_safe_json : PyVal → PyVal)
    (country_id : String) (err : PyVal)
    (hval : validate_country country_id = some err) :
    metadata COUNTRIES validate_country get_safe_json country_id =
      some (MetadataResponse.errorEnvelope err) := by
  unfold metadata
  rw [hval]

/-- Witness for C3: a validator that rejects with a fixed envelope. -/
theorem metadata_error_passthrough_witness :
    metadata [] (fun _ => some (PyVal.pyStr "bad country")) id "zz" =
      some (MetadataResponse.errorEnvelope (PyVal.pyStr "bad country")) :=
  metadata_error_passthrough [] (fun _ => some (PyVal.pyStr "bad country")) id "zz"
    (PyVal.pyStr "bad country") rfl

/-- C8: on the success path the current_law_id field is 1 exactly for the
id uk and 2 for every other id. -/
theorem metadata_current_law_id (COUNTRIES : List (String × PolicyEngineCountry))
    (validate_country : String → Option PyVal) (get_safe_json : PyVal → PyVal)
    (country_id : String) (c : PolicyEngineCountry) (vd : List (String × VariableRecord))
    (hval : validate_country country_id = none)
    (hreg : dictGet COUNTRIES country_id = some c)
    (hvars : build_variables c.tax_benefit_system.variables_ = some vd) :
    (country_id = "uk" →
      response_current_law_id (metadata COUNTRIES validate_country get_safe_json country_id) =
        some 1) ∧
    (country_id ≠ "uk" →
      response_current_law_id (metadata COUNTRIES validate_country get_safe_json country_id) =
        some 2) := by
  rw [metadata_ok_envelope COUNTRIES validate_country get_safe_json country_id c vd
    hval hreg hvars]
  constructor
  · intro h
    simp [response_current_law_id, h]
  · intro h
    simp [response_current_law_id, h]

/-- Witness for C8: uk yields 1, us yields 2. -/
theorem metadata_current_law_id_witness :
    response_current_law_id (metadata sample_COUNTRIES sample_validator id "uk") = some 1 ∧
      response_current_law_id (metadata sample_COUNTRIES sample_validator id "us") = some 2 :=
  ⟨(metadata_current_law_id sample_COUNTRIES sample_validator id "uk" sample_country []
      rfl rfl rfl).1 rfl,
    (metadata_current_law_id sample_COUNTRIES sample_validator id "us" sample_country []
      rfl rfl rfl).2 (by decide)⟩

/-- C7: the economy options are exactly two named regions and the single
2022 time period for uk, thirteen regions and the single 2022 time period
for us, and the empty mapping for every other id. -/
theorem build_microsimulation_options_spec (country : PolicyEngineCountry)
    (country_id : String) :
    ((build_microsimulation_options country "uk").region =
        some [RegionOption.mk "uk" "the UK", RegionOption.mk "ni" "Northern Ireland"] ∧
      (build_microsimulation_options country "uk").time_period =
        some [TimePeriodOption.mk 2022 "2022"]) ∧
    (Option.map List.length (build_microsimulation_options country "us").region = some 13 ∧
      (build_microsimulation_options country "us").time_period =
        some [TimePeriodOption.mk 2022 "2022"]) ∧
    (country_id ≠ "uk" → country_id ≠ "us" →
      build_microsimulation_options country country_id =
        { region := none, time_period := none }) := by
  refine ⟨⟨rfl, rfl⟩, ⟨rfl, rfl⟩, ?_⟩
  intro h1 h2
  unfold build_microsimulation_options
  rw [if_neg h1, if_neg h2]

/-- Witness for C7 at the id fr (neither uk nor us). -/
theorem build_microsimulation_options_spec_witness :
    ((build_microsimulation_options sample_country "uk").region =
        some [RegionOption.mk "uk" "the UK", RegionOption.mk "ni" "Northern Ireland"] ∧
      (build_microsimulation_options sample_country "uk").time_period =
        some [TimePeriodOption.mk 2022 "2022"]) ∧
    build_microsimulation_options sample_country "fr" =
      { region := none, time_period := none } :=
  ⟨(build_microsimulation_options_spec sample_country "fr").1,
    (build_microsimulation_options_spec sample_country "fr").2.2 (by decide) (by decide)⟩

/-- C10: the endpoint is deterministic and mutation-free: with the
invocation embedded as explicit state passing, a second call on the state
left by a first call returns the same response, and the state (registry,
validator, collaborators and their rule systems) is returned unchanged. -/
theorem metadata_call_deterministic_pure (w : World) (country_id : String) :
    (metadata_call ((metadata_call w country_id).2) country_id).1 =
      (metadata_call w country_id).1 ∧
    (metadata_call w country_id).2 = w :=
  ⟨rfl, rfl⟩

/-- The isinstance check accepts exactly the int, float and bool
values. -/
theorem isinstance_int_float_bool_iff (x : PyVal) :
    isinstance_int_float_bool x = true ↔
      (∃ n, x = PyVal.pyInt n) ∨ (∃ q, x = PyVal.pyFloat q) ∨
        (∃ b, x = PyVal.pyBool b) := by
  cases x <;> simp [isinstance_int_float_bool]

/-- C4: for an Enum-typed variable whose default is one of its members,
the emitted record's defaultValue is the default member's name as a
string, and possibleValues is the non-empty list holding one value/label
pair per enumeration member. -/
theorem build_variable_record_enum (variable_name : String) (v : Variable) (m : EnumMember)
    (htype : v.value_type_name = "Enum")
    (hdef : v.default_value = PyVal.pyEnumMember m)
    (hmem : m ∈ v.possible_values) :
    Option.map VariableRecord.defaultValue (build_variable_record variable_name v) =
      some (PyVal.pyStr m.name) ∧
    Option.map VariableRecord.possibleValues (build_variable_record variable_name v) =
      some (some (v.possible_values.map (fun value => PossibleValue.mk value.name value.value))) ∧
    v.possible_values.map (fun value => PossibleValue.mk value.name value.value) ≠ [] := by
  refine ⟨?_, ?_, ?_⟩
  · simp [build_variable_record, htype, hdef]
  · simp [build_variable_record, htype, hdef]
  · intro hnil
    rw [List.map_eq_nil_iff] at hnil
    rw [hnil] at hmem
    exact List.not_mem_nil m hmem

/-- Witness for C4 on the sample enum variable. -/
theorem build_variable_record_enum_witness :
    Option.map VariableRecord.defaultValue (build_variable_record "ev" sample_enum_variable) =
      some (PyVal.pyStr "A") ∧
    Option.map VariableRecord.possibleValues (build_variable_record "ev" sample_enum_variable) =
      some (some [PossibleValue.mk "A" "Option A"]) ∧
    [PossibleValue.mk "A" "Option A"] ≠ [] :=
  build_variable_record_enum "ev" sample_enum_variable sample_member rfl rfl (by decide)

/-- C5: for a non-Enum variable the emitted defaultValue equals the raw
default exactly when that value is an int, float or bool, and is None for
every other runtime type (strings, lists, None, ...). -/
theorem build_variable_record_nonenum (variable_name : String) (v : Variable)
    (htype : v.value_type_name ≠ "Enum") :
    ((∃ n, v.default_value = PyVal.pyInt n) ∨ (∃ q, v.default_value = PyVal.pyFloat q) ∨
        (∃ b, v.default_value = PyVal.pyBool b) →
      Option.map VariableRecord.defaultValue (build_variable_record variable_name v) =
        some v.default_value) ∧
    (¬((∃ n, v.default_value = PyVal.pyInt n) ∨ (∃ q, v.default_value = PyVal.pyFloat q) ∨
        (∃ b, v.default_value = PyVal.pyBool b)) →
      Option.map VariableRecord.defaultValue (build_variable_record variable_name v) =
        some PyVal.pyNone) := by
  constructor
  · intro hin
    have hb : isinstance_int_float_bool v.default_value = true :=
      (isinstance_int_float_bool_iff v.default_value).mpr hin
    simp [build_variable_record, htype, hb]
  · intro hout
    have hb : isinstance_int_float_bool v.default_value = false := by
      rcases Bool.eq_false_or_eq_true (isinstance_int_float_bool v.default_value) with h | h
      · exact absurd ((isinstance_int_float_bool_iff v.default_value).mp h) hout
      · exact h
    simp [build_variable_record, htype, hb]

/-- Witness for C5 on the sample str variable. -/
theorem build_variable_record_nonenum_witness :
    Option.map VariableRecord.defaultValue (build_variable_record "sv" sample_str_variable) =
      some PyVal.pyNone :=
  (build_variable_record_nonenum "sv" sample_str_variable (by decide)).2 (by
    rintro (⟨n, h⟩ | ⟨q, h⟩ | ⟨b, h⟩) <;> simp [sample_str_variable] at h)

/-- C9: every entity record carries a roles key: the role mapping keyed
by role key (with plural, label and doc per role) when the entity exposes
a roles attribute, and the empty mapping when it does not; the key is
never omitted. -/
theorem build_entity_record_roles (entity : Entity) :
    (build_entity_record entity).roles ≠ none ∧
    (entity.roles = none → (build_entity_record entity).roles = some []) ∧
    (∀ rs, entity.roles = some rs →
      (build_entity_record entity).roles = some (rs.foldl
        (fun acc role => dictInsert role.key (RoleRecord.mk role.plural role.label role.doc) acc)
        [])) := by
  refine ⟨?_, ?_, ?_⟩
  · cases h : entity.roles <;> simp [build_entity_record, h]
  · intro h
    simp [build_entity_record, h]
  · intro rs h
    simp [build_entity_record, h]

/-- Witness for C9 on an entity without roles and one with a role. -/
theorem build_entity_record_roles_witness :
    (build_entity_record sample_person).roles = some [] ∧
      (build_entity_record sample_household).roles =
        some [("member", RoleRecord.mk (some "members") (some "Member") (some ""))] :=
  ⟨(build_entity_record_roles sample_person).2.1 rfl,
    (build_entity_record_roles sample_household).2.2 _ rfl⟩
